import Mathlib

/-!
Shallow embedding of the medicare-claims-auditor policy-compliance and
decision pipeline (`src/agents/policy_checker.py`, `src/agents/decision_maker.py`).

Conventions of the embedding:
- Python dicts consumed through `dict.get(key, default)` become structures
  with `Option` fields; each access site uses `Option.getD` (or
  `Option.bind` for nested access) with the default that appears at that
  source line.
- Python floats are modelled as rationals (`ℚ`); `round(x, n)` is modelled
  as rounding `x * 10^n` to the nearest integer (the tie-breaking mode of
  Python's banker rounding is abstracted; no claim depends on ties).
- Python `needle in hay` on strings is the substring test `strIn`;
  `str.lower()` is `pyLower` (characterwise ASCII folding, which covers
  every keyword appearing in the rule tables); `str.split()` is `pySplit`
  (split on whitespace runs, dropping empty pieces).
- The wall-clock timestamp `datetime.now().isoformat()` produced inside
  `make_decision` is modelled as an explicit input `now : String`.
-/

namespace MedicareAudit

/-- `charsBeginWith needle hay`: `hay` starts with `needle` (on char lists). -/
def charsBeginWith : List Char → List Char → Bool
  | [], _ => true
  | _ :: _, [] => false
  | n :: ns, h :: hs => n == h && charsBeginWith ns hs

/-- `charsContain needle hay`: `needle` occurs contiguously inside `hay`. -/
def charsContain : List Char → List Char → Bool
  | needle, [] => needle.isEmpty
  | needle, h :: t => charsBeginWith needle (h :: t) || charsContain needle t

/-- Python `needle in hay` on strings. -/
def strIn (needle hay : String) : Bool :=
  charsContain needle.toList hay.toList

/-- Python `str.lower()`: characterwise ASCII lowercasing (covers every
keyword appearing in the rule tables). -/
def pyLower (s : String) : String :=
  String.mk (s.toList.map Char.toLower)

/-- Whitespace characters recognised by Python `str.split()` (ASCII subset). -/
def isSpaceChar (c : Char) : Bool :=
  c == ' ' || c == '\t' || c == '\n' || c == '\r' || c == '\x0b' || c == '\x0c'

/-- Helper for `pySplit`: split a char list on whitespace runs. -/
def splitWsAux : List Char → List Char → List (List Char)
  | [], acc => if acc.isEmpty then [] else [acc.reverse]
  | c :: rest, acc =>
    if isSpaceChar c then
      if acc.isEmpty then splitWsAux rest [] else acc.reverse :: splitWsAux rest []
    else splitWsAux rest (c :: acc)

/-- Python `str.split()` with no argument: split on whitespace, dropping empties. -/
def pySplit (s : String) : List String :=
  (splitWsAux s.toList []).map fun l => String.mk l

/-- Python `round(x, 2)` on the rational model. -/
def round2 (q : ℚ) : ℚ := (round (q * 100) : ℤ) / 100

/-- Python `round(x, 3)` on the rational model. -/
def round3 (q : ℚ) : ℚ := (round (q * 1000) : ℤ) / 1000

/-- Python `f"{x:.2f}"` on the rational model (x is nonnegative here). -/
def format2 (q : ℚ) : String :=
  let n : ℤ := round (q * 100)
  let ip := n / 100
  let fp := (n % 100).toNat
  toString ip ++ "." ++ (if fp < 10 then "0" else "") ++ toString fp

/-! ## Rule-table data model (`coverage_rules` / `audit_rules` JSON) -/

/-- One NCD/LCD-style coverage rule dict: `source`, `title`, `condition`, `procedure`.
`condition`/`procedure` are read through `rule.get(key, [])`, so a missing list is
indistinguishable from `[]` and is modelled as a plain list. -/
structure CoverageRule where
  source : Option String
  title : Option String
  condition : List String
  procedure : List String
deriving DecidableEq, Repr

/-- The `limits` dict of the rule table. -/
structure CoverageLimits where
  annual_deductible : Option ℚ
  coinsurance_rate : Option ℚ
deriving DecidableEq, Repr

/-- The `requirements` dict of the rule table; every access is `get(key, [])`. -/
structure Requirements where
  prior_authorization : List String
  physician_certification : List String
  documentation_required : List String
deriving DecidableEq, Repr

/-- The `coverage_rules` dict. `limits` and `requirements` are read through
`get(key, {})` and then field-wise `get` with defaults, so a missing dict is
observationally the all-default structure. -/
structure CoverageRules where
  covered : List CoverageRule
  conditional : List CoverageRule
  excluded : List CoverageRule
  limits : CoverageLimits
  requirements : Requirements
deriving DecidableEq, Repr

/-- `audit_rules["risk_assessment"]`: three keyword lists, which
`_assess_risk_level` binds but never reads. -/
structure RiskAssessment where
  high_risk_indicators : List String
  medium_risk_indicators : List String
  low_risk_indicators : List String
deriving DecidableEq, Repr

/-- The loaded medicare rule table, restricted to the parts the pipeline reads. -/
structure MedicareRules where
  coverage_rules : CoverageRules
  risk_assessment : RiskAssessment
deriving DecidableEq, Repr

/-! ## Claim record -/

/-- `extracted_info` dict; every read is `get(key, default)`. -/
structure ExtractedInfo where
  patient : Option String
  diagnosis : Option String
  treatment : Option String
  cost : Option ℚ
deriving DecidableEq, Repr

/-! ## Compliance-report data model (output of `check_policy_compliance`,
input of `make_decision`).  Fields are `Option`s because the DecisionMaker
reads every one of them through `dict.get` with a per-site default. -/

structure CoverageStatus where
  status : Option String
  source : Option String
  title : Option String
  reason : Option String
deriving DecidableEq, Repr

structure CostCompliance where
  total_cost : Option ℚ
  deductible : Option ℚ
  patient_responsibility : Option ℚ
  insurance_payment : Option ℚ
  coinsurance_rate : Option ℚ
  warnings : Option (List String)
  compliant : Option Bool
deriving DecidableEq, Repr

structure SpecialRequirements where
  required_items : Option (List String)
  prior_authorization : Option Bool
  physician_certification : Option Bool
  additional_documentation : Option Bool
  compliant : Option Bool
deriving DecidableEq, Repr

structure RiskLevel where
  level : Option String
  score : Option ℤ
  factors : Option (List String)
  requires_manual_review : Option Bool
deriving DecidableEq, Repr

/-- The policy checker's own `final_decision` dict (the provisional decision). -/
structure ProvisionalDecision where
  decision : Option String
  reason : Option String
  confidence : Option ℚ
deriving DecidableEq, Repr

/-- One entry of `applicable_ncds`. -/
structure NcdRef where
  source : String
  title : String
  category : String
deriving DecidableEq, Repr

/-- The `compliance_details` dict (always fully populated by the producer). -/
structure ComplianceDetails where
  deductible_applicable : Bool
  coinsurance_rate : ℚ
  geographic_considerations : String
  prior_authorization_required : Bool
deriving DecidableEq, Repr

/-- The full compliance report returned by `check_policy_compliance`. -/
structure PolicyResult where
  patient : Option String
  coverage_status : Option CoverageStatus
  cost_compliance : Option CostCompliance
  special_requirements : Option SpecialRequirements
  risk_level : Option RiskLevel
  final_decision : Option ProvisionalDecision
  applicable_ncds : Option (List NcdRef)
  benefit_category : Option String
  compliance_details : Option ComplianceDetails
deriving DecidableEq, Repr

/-! ## PolicyChecker (`src/agents/policy_checker.py`) -/

/-- `PolicyChecker._matches_rule` (lines 151-176). -/
def matches_rule (diagnosis treatment : String) (rule : CoverageRule) : Bool :=
  let conditions := rule.condition
  let procedures := rule.procedure
  let diagnosis_match :=
    if conditions.isEmpty then true
    else conditions.any fun condition => strIn (pyLower condition) (pyLower diagnosis)
  let treatment_match :=
    if procedures.isEmpty then true
    else procedures.any fun proc => strIn (pyLower proc) (pyLower treatment)
  diagnosis_match || treatment_match

/-- `PolicyChecker._determine_coverage_status` (lines 107-149). -/
def determine_coverage_status (diagnosis treatment : String)
    (coverage_rules : CoverageRules) : CoverageStatus :=
  match coverage_rules.covered.find? (fun r => matches_rule diagnosis treatment r) with
  | some rule =>
    { status := some "COVERED", source := some (rule.source.getD "Unknown"),
      title := some (rule.title.getD ""),
      reason := some ("Meets Medicare coverage determination: " ++ rule.title.getD "") }
  | none =>
    match coverage_rules.conditional.find? (fun r => matches_rule diagnosis treatment r) with
    | some rule =>
      { status := some "CONDITIONAL", source := some (rule.source.getD "Unknown"),
        title := some (rule.title.getD ""),
        reason := some ("Conditional coverage, must meet specific requirements: "
          ++ rule.title.getD "") }
    | none =>
      match coverage_rules.excluded.find? (fun r => matches_rule diagnosis treatment r) with
      | some rule =>
        { status := some "EXCLUDED", source := some (rule.source.getD "Unknown"),
          title := some (rule.title.getD ""),
          reason := some ("Explicitly excluded service: " ++ rule.title.getD "") }
      | none =>
        { status := some "REQUIRES_REVIEW", source := some "Policy_Default",
          title := some "Manual Review Required",
          reason := some "No explicit coverage determination found, requires manual review" }

/-- Raw (pre-rounding) patient responsibility of `_check_cost_limits` line 184:
`annual_deductible + (cost - annual_deductible) * coinsurance_rate`. -/
def patient_responsibility_raw (cost annual_deductible coinsurance_rate : ℚ) : ℚ :=
  annual_deductible + (cost - annual_deductible) * coinsurance_rate

/-- Raw (pre-rounding) insurance payment of `_check_cost_limits` line 185:
`cost - patient_responsibility`. -/
def insurance_payment_raw (cost annual_deductible coinsurance_rate : ℚ) : ℚ :=
  cost - patient_responsibility_raw cost annual_deductible coinsurance_rate

/-- The spec's cost formula (§4.2 of the spec document, with the `max`):
`deductible + max(0, cost - deductible) * coinsurance_rate`.
This definition follows the SPEC's words, for comparison with the code. -/
def patient_responsibility_spec (cost annual_deductible coinsurance_rate : ℚ) : ℚ :=
  annual_deductible + max 0 (cost - annual_deductible) * coinsurance_rate

/-- `PolicyChecker._check_cost_limits` (lines 178-202). -/
def check_cost_limits (cost : ℚ) (limits : CoverageLimits) : CostCompliance :=
  let annual_deductible := limits.annual_deductible.getD 1600
  let coinsurance_rate := limits.coinsurance_rate.getD (1/5)
  let patient_responsibility := patient_responsibility_raw cost annual_deductible coinsurance_rate
  let insurance_payment := insurance_payment_raw cost annual_deductible coinsurance_rate
  let warnings :=
    (if cost > 50000 then ["High-cost claim requiring special review"] else [])
    ++ (if cost > 100000 then ["Ultra-high-cost claim requiring committee review"] else [])
  { total_cost := some cost,
    deductible := some annual_deductible,
    patient_responsibility := some (round2 patient_responsibility),
    insurance_payment := some (round2 insurance_payment),
    coinsurance_rate := some coinsurance_rate,
    warnings := some warnings,
    compliant := some true }

/-- `PolicyChecker._check_special_requirements` (lines 204-228). -/
def check_special_requirements (diagnosis treatment : String)
    (requirements : Requirements) : SpecialRequirements :=
  let prior_hits :=
    (requirements.prior_authorization.filter fun item =>
      (pySplit (pyLower item)).any fun keyword => strIn keyword (pyLower treatment)).map
      fun item => "Prior authorization required: " ++ item
  let cert_hits :=
    (requirements.physician_certification.filter fun item =>
      (pySplit (pyLower item)).any fun keyword => strIn keyword (pyLower treatment)).map
      fun item => "Physician certification required: " ++ item
  let doc_items :=
    (requirements.documentation_required.take 2).map
      fun item => "Documentation required: " ++ item
  let required_items := prior_hits ++ cert_hits ++ doc_items
  { required_items := some required_items,
    prior_authorization :=
      some (required_items.any fun item => strIn "prior authorization" (pyLower item)),
    physician_certification :=
      some (required_items.any fun item => strIn "physician certification" (pyLower item)),
    additional_documentation :=
      some (required_items.any fun item => strIn "documentation" (pyLower item)),
    compliant := some true }

/-- `PolicyChecker._assess_risk_level` (lines 230-275).  The source also binds
`high_risk_indicators` / `medium_risk_indicators` / `low_risk_indicators` from
`risk_assessment` but never reads them, so the parameter is unused. -/
def assess_risk_level (cost : ℚ) (diagnosis treatment : String)
    (risk_assessment : RiskAssessment) : RiskLevel :=
  let acc0 : ℤ × List String := (0, [])
  let acc1 :=
    if cost > 50000 then (acc0.1 + 3, acc0.2 ++ ["High-cost claim"]) else acc0
  let acc2 :=
    if ["experimental", "investigational"].any (fun keyword => strIn keyword (pyLower treatment))
    then (acc1.1 + 3, acc1.2 ++ ["Experimental treatment"]) else acc1
  let acc3 :=
    if cost > 10000 then (acc2.1 + 2, acc2.2 ++ ["Elevated cost"]) else acc2
  let acc4 :=
    if ["elective"].any (fun keyword => strIn keyword (pyLower treatment))
    then (acc3.1 + 2, acc3.2 ++ ["Elective procedure"]) else acc3
  let acc5 :=
    if ["routine", "preventive"].any (fun keyword => strIn keyword (pyLower treatment))
    then (acc4.1 - 1, acc4.2 ++ ["Routine care"]) else acc4
  let risk_score := acc5.1
  let risk_level := if risk_score ≥ 5 then "HIGH" else if risk_score ≥ 2 then "MEDIUM" else "LOW"
  { level := some risk_level,
    score := some risk_score,
    factors := some acc5.2,
    requires_manual_review := some (risk_level == "HIGH" || risk_level == "MEDIUM") }

/-- `PolicyChecker._make_coverage_decision` (lines 277-327). -/
def make_coverage_decision (coverage_status : CoverageStatus)
    (cost_compliance : CostCompliance) (special_requirements : SpecialRequirements)
    (risk_level : RiskLevel) (cost : ℚ) : ProvisionalDecision :=
  let status := coverage_status.status.getD "REQUIRES_REVIEW"
  let risk := risk_level.level.getD "MEDIUM"
  if status == "EXCLUDED" then
    { decision := some "DENIED",
      reason := some (coverage_status.reason.getD "Service excluded from coverage"),
      confidence := some (95/100) }
  else if status == "COVERED" && risk == "LOW" && cost < 5000 then
    { decision := some "APPROVED",
      reason := some "Meets Medicare coverage standards with low risk",
      confidence := some (90/100) }
  else if status == "CONDITIONAL" then
    if special_requirements.compliant.getD true then
      { decision := some "APPROVED",
        reason := some "Meets conditional coverage requirements",
        confidence := some (80/100) }
    else
      { decision := some "PENDING",
        reason := some "Additional requirements must be met",
        confidence := some (60/100) }
  else if risk == "HIGH" || cost > 25000 then
    { decision := some "REQUIRES_REVIEW",
      reason := some "High-risk or high-cost claim requires manual review",
      confidence := some (50/100) }
  else
    { decision := some "APPROVED",
      reason := some "Meets basic coverage conditions",
      confidence := some (75/100) }

/-- `PolicyChecker._find_applicable_ncds` (lines 329-344). -/
def find_applicable_ncds (diagnosis treatment : String)
    (coverage_rules : CoverageRules) : List NcdRef :=
  let collect (category : String) (rules : List CoverageRule) : List NcdRef :=
    (rules.filter fun r => matches_rule diagnosis treatment r).map
      fun r => { source := r.source.getD "", title := r.title.getD "", category := category }
  (collect "covered" coverage_rules.covered
    ++ collect "conditional" coverage_rules.conditional
    ++ collect "excluded" coverage_rules.excluded).take 3

/-- `PolicyChecker._determine_benefit_category` (lines 346-362). -/
def determine_benefit_category (treatment : String) : String :=
  let treatment_lower := pyLower treatment
  if ["surgery", "surgical"].any (fun k => strIn k treatment_lower) then
    "Inpatient Hospital Services"
  else if ["therapy", "rehabilitation", "treatment"].any (fun k => strIn k treatment_lower) then
    "Outpatient Physical Therapy Services"
  else if ["imaging", "x-ray", "ct", "mri"].any (fun k => strIn k treatment_lower) then
    "Diagnostic X-Ray Tests"
  else if ["drug", "medication", "injection"].any (fun k => strIn k treatment_lower) then
    "Drugs and Biologicals"
  else if ["device", "equipment"].any (fun k => strIn k treatment_lower) then
    "Durable Medical Equipment"
  else
    "Physicians' Services"

/-- `PolicyChecker.check_policy_compliance` (lines 59-105).
`prior_authorization_required` models
`"prior authorization" in str(special_requirements).lower()`: the phrase can
only occur inside the `required_items` entries of that dict (every other value
is a boolean and the keys are underscored), so the test is containment in some
required item. -/
def check_policy_compliance (extracted_info : ExtractedInfo)
    (medicare_rules : MedicareRules) : PolicyResult :=
  let patient := extracted_info.patient.getD "Unknown"
  let diagnosis := pyLower (extracted_info.diagnosis.getD "")
  let treatment := pyLower (extracted_info.treatment.getD "")
  let cost := extracted_info.cost.getD 0
  let coverage_rules := medicare_rules.coverage_rules
  let coverage_status := determine_coverage_status diagnosis treatment coverage_rules
  let cost_compliance := check_cost_limits cost coverage_rules.limits
  let special_requirements :=
    check_special_requirements diagnosis treatment coverage_rules.requirements
  let risk_level := assess_risk_level cost diagnosis treatment medicare_rules.risk_assessment
  let final_decision :=
    make_coverage_decision coverage_status cost_compliance special_requirements risk_level cost
  { patient := some patient,
    coverage_status := some coverage_status,
    cost_compliance := some cost_compliance,
    special_requirements := some special_requirements,
    risk_level := some risk_level,
    final_decision := some final_decision,
    applicable_ncds := some (find_applicable_ncds diagnosis treatment coverage_rules),
    benefit_category := some (determine_benefit_category treatment),
    compliance_details := some
      { deductible_applicable := true,
        coinsurance_rate := coverage_rules.limits.coinsurance_rate.getD (1/5),
        geographic_considerations := "Standard metropolitan area",
        prior_authorization_required :=
          (special_requirements.required_items.getD []).any
            fun item => strIn "prior authorization" (pyLower item) } }

/-! ## DecisionMaker (`src/agents/decision_maker.py`) -/

/-- The output `financial_impact` dict. -/
structure FinancialImpact where
  total_claim_amount : ℚ
  approved_amount : ℚ
  patient_responsibility : ℚ
  insurance_payment : ℚ
deriving DecidableEq, Repr

/-- The output `medicare_details` dict. -/
structure MedicareDetails where
  coverage_status : String
  applicable_ncds : List NcdRef
  benefit_category : String
  risk_level : String
deriving DecidableEq, Repr

/-- The output `processing_metadata` dict. -/
structure ProcessingMetadata where
  decision_timestamp : String
  requires_manual_review : Bool
  escalation_required : Bool
deriving DecidableEq, Repr

/-- The final decision dict returned by `DecisionMaker.make_decision`. -/
structure FinalDecision where
  patient : String
  decision : String
  decision_score : ℚ
  confidence : ℚ
  reason : String
  recommendations : List String
  financial_impact : FinancialImpact
  medicare_details : MedicareDetails
  processing_metadata : ProcessingMetadata
deriving DecidableEq, Repr

/-- `DecisionMaker.decision_weights` (lines 17-22). -/
def weight_coverage_status : ℚ := 40/100
def weight_risk_level : ℚ := 25/100
def weight_cost_compliance : ℚ := 20/100
def weight_special_requirements : ℚ := 15/100

/-- `DecisionMaker.decision_thresholds` (lines 25-29). -/
def threshold_auto_approve : ℚ := 80/100
def threshold_manual_review : ℚ := 50/100
def threshold_auto_deny : ℚ := 20/100

/-- The `status_scores` dict of `_get_coverage_score` (lines 115-121). -/
def status_scores : List (String × ℚ) :=
  [("COVERED", 1), ("CONDITIONAL", 7/10), ("REQUIRES_REVIEW", 1/2),
   ("EXCLUDED", 0), ("UNKNOWN", 3/10)]

/-- `DecisionMaker._get_coverage_score` (lines 113-122): `dict.get(status, 0.3)`. -/
def get_coverage_score (coverage_status : String) : ℚ :=
  ((status_scores.find? fun p => p.1 == coverage_status).map Prod.snd).getD (3/10)

/-- The `risk_scores` dict of `_get_risk_score` (lines 126-130). -/
def risk_scores : List (String × ℚ) :=
  [("LOW", 1), ("MEDIUM", 6/10), ("HIGH", 2/10)]

/-- `DecisionMaker._get_risk_score` (lines 124-131): `dict.get(level, 0.6)`. -/
def get_risk_score (risk_level : String) : ℚ :=
  ((risk_scores.find? fun p => p.1 == risk_level).map Prod.snd).getD (6/10)

/-- `DecisionMaker._get_cost_score` (lines 133-144). -/
def get_cost_score (cost_compliance : Option CostCompliance) : ℚ :=
  if !((cost_compliance.bind fun c => c.compliant).getD true) then 0
  else
    let warnings := (cost_compliance.bind fun c => c.warnings).getD []
    if warnings.length ≥ 2 then 3/10
    else if warnings.length == 1 then 7/10
    else 1

/-- `DecisionMaker._get_requirements_score` (lines 146-157). -/
def get_requirements_score (special_requirements : Option SpecialRequirements) : ℚ :=
  if !((special_requirements.bind fun s => s.compliant).getD true) then 0
  else
    let required_items := (special_requirements.bind fun s => s.required_items).getD []
    if required_items.length > 3 then 1/2
    else if required_items.length > 0 then 8/10
    else 1

/-- `DecisionMaker._calculate_decision_score` (lines 87-111). -/
def calculate_decision_score (policy_result : PolicyResult) : ℚ :=
  let coverage_status := (policy_result.coverage_status.bind fun c => c.status).getD "UNKNOWN"
  let risk_level := (policy_result.risk_level.bind fun r => r.level).getD "MEDIUM"
  let score :=
    get_coverage_score coverage_status * weight_coverage_status
    + get_risk_score risk_level * weight_risk_level
    + get_cost_score policy_result.cost_compliance * weight_cost_compliance
    + get_requirements_score policy_result.special_requirements * weight_special_requirements
  max 0 (min 1 score)

/-- `DecisionMaker._determine_decision_type` (lines 159-179). -/
def determine_decision_type (decision_score : ℚ) (policy_result : PolicyResult) : String :=
  let policy_decision :=
    (policy_result.final_decision.bind fun f => f.decision).getD "REQUIRES_REVIEW"
  if policy_decision == "DENIED" then "DENIED"
  else if (policy_result.risk_level.bind fun r => r.requires_manual_review).getD false then
    "REQUIRES_REVIEW"
  else if decision_score ≥ threshold_auto_approve then "APPROVED"
  else if decision_score ≥ threshold_manual_review then "REQUIRES_REVIEW"
  else "DENIED"

/-- `DecisionMaker._generate_decision_reason` (lines 181-210).
`coverage_status.get('status')` (no default) yields `None`, which equals none
of the compared literals; it is modelled as comparison with `some literal`. -/
def generate_decision_reason (policy_result : PolicyResult) (decision_score : ℚ) : String :=
  let cs := policy_result.coverage_status
  let status := cs.bind fun c => c.status
  let coverage_reasons : List String :=
    if status = some "COVERED" then
      ["Service within Medicare coverage (" ++ ((cs.bind fun c => c.source).getD "") ++ ")"]
    else if status = some "CONDITIONAL" then
      ["Conditional coverage, must meet specific requirements"]
    else if status = some "EXCLUDED" then
      ["Service excluded by Medicare"]
    else []
  let risk_factors := ((policy_result.risk_level.bind fun r => r.factors).getD [])
  let risk_reasons : List String :=
    if risk_factors.isEmpty then []
    else ["Risk factors: " ++ String.intercalate ", " (risk_factors.take 2)]
  let warnings := ((policy_result.cost_compliance.bind fun c => c.warnings).getD [])
  let cost_reasons : List String :=
    if warnings.isEmpty then []
    else ["Cost warning: " ++ warnings.headD ""]
  let reasons := coverage_reasons ++ risk_reasons ++ cost_reasons
    ++ ["Comprehensive score: " ++ format2 decision_score]
  String.intercalate " | " reasons

/-- `DecisionMaker._calculate_confidence` (lines 212-226). -/
def calculate_confidence (policy_result : PolicyResult) (decision_score : ℚ) : ℚ :=
  let base0 := decision_score
  let coverage_status := (policy_result.coverage_status.bind fun c => c.status).getD ""
  let base1 :=
    if coverage_status == "COVERED" || coverage_status == "EXCLUDED" then base0 + 1/10 else base0
  let risk_level := (policy_result.risk_level.bind fun r => r.level).getD ""
  let base2 := if risk_level == "LOW" || risk_level == "HIGH" then base1 + 5/100 else base1
  max 0 (min 1 base2)

/-- `DecisionMaker._generate_recommendations` (lines 228-254).
`special_req.get('prior_authorization')` with no default yields `None`, which
is falsy, so the missing case is modelled by `getD false`. -/
def generate_recommendations (policy_result : PolicyResult) (decision_type : String) :
    List String :=
  let base :=
    if decision_type == "APPROVED" then
      ["Approve claims application", "Process payment according to Medicare standards"]
    else if decision_type == "DENIED" then
      ["Deny claim: " ++ ((policy_result.coverage_status.bind fun c => c.reason).getD ""),
       "Explain denial reason to patient"]
    else if decision_type == "REQUIRES_REVIEW" then
      ["Submit for manual review"]
      ++ (if (policy_result.special_requirements.bind fun s => s.prior_authorization).getD false
          then ["Verify prior authorization documentation"] else [])
      ++ (if (policy_result.special_requirements.bind
                fun s => s.physician_certification).getD false
          then ["Request physician certification documents"] else [])
    else []
  let risk_level := (policy_result.risk_level.bind fun r => r.level).getD ""
  base ++ (if risk_level == "HIGH" then ["High-risk case, recommend committee review"] else [])

/-- `DecisionMaker.make_decision` (lines 31-85).  The wall-clock call
`datetime.now().isoformat()` at line 81 is modelled by the input `now`. -/
def make_decision (extracted_info : ExtractedInfo) (policy_result : PolicyResult)
    (now : String) : FinalDecision :=
  let patient := extracted_info.patient.getD "Unknown"
  let cost := extracted_info.cost.getD 0
  let decision_score := calculate_decision_score policy_result
  let decision_type := determine_decision_type decision_score policy_result
  let reason := generate_decision_reason policy_result decision_score
  let confidence := calculate_confidence policy_result decision_score
  let recommendations := generate_recommendations policy_result decision_type
  { patient := patient,
    decision := decision_type,
    decision_score := round3 decision_score,
    confidence := round3 confidence,
    reason := reason,
    recommendations := recommendations,
    financial_impact :=
      { total_claim_amount := cost,
        approved_amount := if decision_type == "APPROVED" then cost else 0,
        patient_responsibility :=
          (policy_result.cost_compliance.bind fun c => c.patient_responsibility).getD 0,
        insurance_payment :=
          if decision_type == "APPROVED" then
            (policy_result.cost_compliance.bind fun c => c.insurance_payment).getD 0
          else 0 },
    medicare_details :=
      { coverage_status := (policy_result.coverage_status.bind fun c => c.status).getD "UNKNOWN",
        applicable_ncds := policy_result.applicable_ncds.getD [],
        benefit_category := policy_result.benefit_category.getD "Unknown",
        risk_level := (policy_result.risk_level.bind fun r => r.level).getD "MEDIUM" },
    processing_metadata :=
      { decision_timestamp := now,
        requires_manual_review :=
          (policy_result.risk_level.bind fun r => r.requires_manual_review).getD false,
        escalation_required := decision_type == "REQUIRES_REVIEW" } }

/-- The two-stage pipeline of `LeadAgent.process_claim` restricted to the core:
policy compliance check followed by decision making. -/
def pipeline (extracted_info : ExtractedInfo) (medicare_rules : MedicareRules)
    (now : String) : FinalDecision :=
  make_decision extracted_info (check_policy_compliance extracted_info medicare_rules) now

/-! ## Auxiliary definitions used by the verification -/

/-- A final decision with the wall-clock timestamp field blanked out. -/
def erase_timestamp (fd : FinalDecision) : FinalDecision :=
  { fd with processing_metadata := { fd.processing_metadata with decision_timestamp := "" } }

/-- A claim record with every field missing. -/
def empty_info : ExtractedInfo := ⟨none, none, none, none⟩

/-- A claim record carrying exactly the documented defaults. -/
def default_info : ExtractedInfo := ⟨some "Unknown", some "", some "", some 0⟩

/-- A compliance report with every nested field missing. -/
def empty_report : PolicyResult := ⟨none, none, none, none, none, none, none, none, none⟩

/-- Sample rule table whose only rule is an exclusion keyed on the word
"cosmetic" in the treatment text. -/
def rules_excl : MedicareRules :=
  { coverage_rules :=
      { covered := [], conditional := [],
        excluded := [{ source := some "NCD-140.2", title := some "Cosmetic Surgery",
                       condition := ["no-such-diagnosis"], procedure := ["cosmetic"] }],
        limits := { annual_deductible := some 1600, coinsurance_rate := some (1/5) },
        requirements := { prior_authorization := [], physician_certification := [],
                          documentation_required := [] } },
    risk_assessment := ⟨[], [], []⟩ }

/-- Sample claim that hits the exclusion of `rules_excl` and every risk signal. -/
def info_cosmetic : ExtractedInfo :=
  ⟨some "P1", some "burns", some "experimental elective cosmetic surgery", some 60000⟩

/-- Sample rule table in which one covered rule and one excluded rule both
match the diagnosis "cataract". -/
def rules_both : MedicareRules :=
  { coverage_rules :=
      { covered := [{ source := some "NCD-A", title := some "Covered Cataract",
                      condition := ["cataract"], procedure := ["phaco"] }],
        conditional := [],
        excluded := [{ source := some "NCD-B", title := some "Excluded Cataract",
                       condition := ["cataract"], procedure := ["none-such"] }],
        limits := { annual_deductible := some 1600, coinsurance_rate := some (1/5) },
        requirements := { prior_authorization := [], physician_certification := [],
                          documentation_required := [] } },
    risk_assessment := ⟨[], [], []⟩ }

/-- Sample claim matching both rules of `rules_both`. -/
def info_cataract : ExtractedInfo :=
  ⟨some "P2", some "Cataract", some "Phaco-emulsification", some 3500⟩

/-- A compliance report stating risk level HIGH while `requires_manual_review`
is `false` (a combination `check_policy_compliance` itself never emits), with
otherwise favourable fields. -/
def report_high_no_review : PolicyResult :=
  { patient := none,
    coverage_status := some ⟨some "COVERED", some "SRC", some "T", some "R"⟩,
    cost_compliance := none,
    special_requirements := none,
    risk_level := some ⟨some "HIGH", some 5, some [], some false⟩,
    final_decision := none,
    applicable_ncds := none,
    benefit_category := none,
    compliance_details := none }

/-! ## Helper lemmas -/

/-- When the coverage status is EXCLUDED, `_make_coverage_decision` returns the
DENIED record with confidence 0.95, whatever the other inputs are. -/
theorem make_coverage_decision_of_excluded (cs : CoverageStatus) (cc : CostCompliance)
    (sr : SpecialRequirements) (rl : RiskLevel) (cost : ℚ)
    (h : cs.status = some "EXCLUDED") :
    make_coverage_decision cs cc sr rl cost =
      { decision := some "DENIED",
        reason := some (cs.reason.getD "Service excluded from coverage"),
        confidence := some (95/100) } := by
  simp [make_coverage_decision, h]

/-- `round` is monotone on ℚ. -/
theorem round_rat_mono {a b : ℚ} (h : a ≤ b) : round a ≤ round b := by
  rw [round_eq, round_eq]
  exact Int.floor_mono (by linarith)

set_option maxHeartbeats 1000000 in
/-- Closed form of `_assess_risk_level`: the sequential accumulation equals
the signed sum of the five independent signals, bucketed on the raw score. -/
theorem assess_risk_level_eq (cost : ℚ) (d t : String) (ra : RiskAssessment) :
    assess_risk_level cost d t ra =
      (let s : ℤ :=
        (if cost > 50000 then 3 else 0)
        + (if strIn "experimental" (pyLower t) || strIn "investigational" (pyLower t)
            then 3 else 0)
        + (if cost > 10000 then 2 else 0)
        + (if strIn "elective" (pyLower t) then 2 else 0)
        - (if strIn "routine" (pyLower t) || strIn "preventive" (pyLower t) then 1 else 0)
      let lvl := if s ≥ 5 then "HIGH" else if s ≥ 2 then "MEDIUM" else "LOW"
      { level := some lvl,
        score := some s,
        factors := some ((if cost > 50000 then ["High-cost claim"] else [])
          ++ (if strIn "experimental" (pyLower t) || strIn "investigational" (pyLower t)
              then ["Experimental treatment"] else [])
          ++ (if cost > 10000 then ["Elevated cost"] else [])
          ++ (if strIn "elective" (pyLower t) then ["Elective procedure"] else [])
          ++ (if strIn "routine" (pyLower t) || strIn "preventive" (pyLower t)
              then ["Routine care"] else [])),
        requires_manual_review := some (lvl == "HIGH" || lvl == "MEDIUM") }) := by
  unfold assess_risk_level
  simp only [List.any_cons, List.any_nil, Bool.or_false]
  by_cases h1 : cost > 50000 <;>
    by_cases h2 : (strIn "experimental" (pyLower t)
      || strIn "investigational" (pyLower t)) = true <;>
    by_cases h3 : cost > 10000 <;>
    by_cases h4 : strIn "elective" (pyLower t) = true <;>
    by_cases h5 : (strIn "routine" (pyLower t) || strIn "preventive" (pyLower t)) = true <;>
    simp [h1, h2, h3, h4, h5]

/-- `round3` maps `[0, 1]` into `[0, 1]`. -/
theorem round3_mem_unit {q : ℚ} (h0 : 0 ≤ q) (h1 : q ≤ 1) :
    0 ≤ round3 q ∧ round3 q ≤ 1 := by
  have hlo : (0 : ℤ) ≤ round (q * 1000) := by
    have := round_rat_mono (a := 0) (b := q * 1000) (by nlinarith)
    simpa using this
  have hhi : round (q * 1000) ≤ 1000 := by
    have := round_rat_mono (a := q * 1000) (b := 1000) (by nlinarith)
    simpa using this
  constructor
  · unfold round3
    positivity
  · unfold round3
    rw [div_le_one (by norm_num)]
    exact_mod_cast hhi

/-! ## Claim theorems -/

/-- C6: for every cost and limits table, the patient responsibility and the
insurance payment computed by `_check_cost_limits` sum to the cost exactly,
taking the values before the 2-decimal rounding used for reporting; the
reported fields are exactly the 2-decimal roundings of those raw values. -/
theorem C6_cost_split_conservation (cost : ℚ) (limits : CoverageLimits) :
    patient_responsibility_raw cost (limits.annual_deductible.getD 1600)
        (limits.coinsurance_rate.getD (1/5))
      + insurance_payment_raw cost (limits.annual_deductible.getD 1600)
        (limits.coinsurance_rate.getD (1/5)) = cost
    ∧ (check_cost_limits cost limits).patient_responsibility
        = some (round2 (patient_responsibility_raw cost (limits.annual_deductible.getD 1600)
            (limits.coinsurance_rate.getD (1/5))))
    ∧ (check_cost_limits cost limits).insurance_payment
        = some (round2 (insurance_payment_raw cost (limits.annual_deductible.getD 1600)
            (limits.coinsurance_rate.getD (1/5)))) := by
  refine ⟨?_, rfl, rfl⟩
  unfold insurance_payment_raw
  ring

/-- C10: `_assess_risk_level` depends only on the cost and the treatment, not
on the diagnosis or on the risk-indicator keyword lists of the rule table, and
`_check_special_requirements` does not depend on the diagnosis either. -/
theorem C10_diagnosis_noninterference (cost : ℚ) (treatment d1 d2 : String)
    (ra1 ra2 : RiskAssessment) (req : Requirements) :
    assess_risk_level cost d1 treatment ra1 = assess_risk_level cost d2 treatment ra2
    ∧ check_special_requirements d1 treatment req
        = check_special_requirements d2 treatment req :=
  ⟨rfl, rfl⟩

/-- C8: the decision score and the confidence are clamped into `[0, 1]` for
every input report, both as computed and as reported (after the 3-decimal
rounding), including after the +0.10 coverage boost and the +0.05 risk boost
applied inside `_calculate_confidence`. -/
theorem C8_score_and_confidence_bounds (ei : ExtractedInfo) (pr : PolicyResult)
    (now : String) :
    (0 ≤ calculate_decision_score pr ∧ calculate_decision_score pr ≤ 1)
    ∧ (0 ≤ calculate_confidence pr (calculate_decision_score pr)
        ∧ calculate_confidence pr (calculate_decision_score pr) ≤ 1)
    ∧ (0 ≤ (make_decision ei pr now).decision_score
        ∧ (make_decision ei pr now).decision_score ≤ 1)
    ∧ (0 ≤ (make_decision ei pr now).confidence
        ∧ (make_decision ei pr now).confidence ≤ 1) := by
  have hs : 0 ≤ calculate_decision_score pr ∧ calculate_decision_score pr ≤ 1 := by
    unfold calculate_decision_score
    constructor
    · exact le_max_left 0 _
    · exact max_le (by norm_num) (min_le_left 1 _)
  have hc : 0 ≤ calculate_confidence pr (calculate_decision_score pr)
      ∧ calculate_confidence pr (calculate_decision_score pr) ≤ 1 := by
    unfold calculate_confidence
    constructor
    · exact le_max_left 0 _
    · exact max_le (by norm_num) (min_le_left 1 _)
  refine ⟨hs, hc, ?_, ?_⟩
  · simpa [make_decision] using round3_mem_unit hs.1 hs.2
  · simpa [make_decision] using round3_mem_unit hc.1 hc.2

/-- C1: if the compliance report classifies the coverage as EXCLUDED, the
provisional decision is DENIED with confidence 0.95, and the DecisionMaker's
final decision is DENIED for every composite decision score. -/
theorem C1_excluded_coverage_denied (ei : ExtractedInfo) (rules : MedicareRules)
    (now : String)
    (h : ((check_policy_compliance ei rules).coverage_status.bind fun c => c.status)
      = some "EXCLUDED") :
    (((check_policy_compliance ei rules).final_decision.bind fun f => f.decision)
      = some "DENIED")
    ∧ (((check_policy_compliance ei rules).final_decision.bind fun f => f.confidence)
      = some (95/100))
    ∧ (∀ score : ℚ, determine_decision_type score (check_policy_compliance ei rules)
      = "DENIED")
    ∧ (pipeline ei rules now).decision = "DENIED" := by
  have hcs : (determine_coverage_status (pyLower (ei.diagnosis.getD ""))
      (pyLower (ei.treatment.getD "")) rules.coverage_rules).status = some "EXCLUDED" := by
    simpa [check_policy_compliance] using h
  have hmk := make_coverage_decision_of_excluded _
    (check_cost_limits (ei.cost.getD 0) rules.coverage_rules.limits)
    (check_special_requirements (pyLower (ei.diagnosis.getD ""))
      (pyLower (ei.treatment.getD "")) rules.coverage_rules.requirements)
    (assess_risk_level (ei.cost.getD 0) (pyLower (ei.diagnosis.getD ""))
      (pyLower (ei.treatment.getD "")) rules.risk_assessment)
    (ei.cost.getD 0) hcs
  have h1 : ((check_policy_compliance ei rules).final_decision.bind fun f => f.decision)
      = some "DENIED" := by
    simp [check_policy_compliance, hmk]
  have h2 : ((check_policy_compliance ei rules).final_decision.bind fun f => f.confidence)
      = some (95/100) := by
    simp [check_policy_compliance, hmk]
  have h3 : ∀ score : ℚ, determine_decision_type score (check_policy_compliance ei rules)
      = "DENIED" := by
    intro score
    simp [determine_decision_type, h1]
  exact ⟨h1, h2, h3, h3 _⟩

/-- C1 witness: a concrete cosmetic-surgery claim hits the exclusion rule and
is denied by both stages. -/
theorem C1_excluded_coverage_denied_witness :
    (((check_policy_compliance info_cosmetic rules_excl).coverage_status.bind
        fun c => c.status) = some "EXCLUDED")
    ∧ (pipeline info_cosmetic rules_excl "2024-06-01T00:00:00").decision = "DENIED" :=
  ⟨by decide,
   (C1_excluded_coverage_denied info_cosmetic rules_excl "2024-06-01T00:00:00"
     (by decide)).2.2.2⟩

/-- C3 counterexample: the code computes
`patient_responsibility = deductible + (cost - deductible) * rate` WITHOUT the
`max(0, ·)` of the claim.  At cost 0 with deductible 1600 and rate 0.20 the
code reports 1280, while the claim's formula gives 1600. -/
theorem C3_no_max_counterexample :
    (check_cost_limits 0
        { annual_deductible := some 1600, coinsurance_rate := some (1/5) }).patient_responsibility
      = some 1280
    ∧ patient_responsibility_spec 0 1600 (1/5) = 1600
    ∧ (1280 : ℚ) ≠ 1600 := by
  refine ⟨?_, ?_, by norm_num⟩
  · show some (round2 (patient_responsibility_raw 0 1600 (1/5))) = some 1280
    norm_num [round2, patient_responsibility_raw, round_eq]
  · norm_num [patient_responsibility_spec]

/-- C3 amended: the cost evaluation returns
`patient_responsibility = round2 (d + (c - d) * r)` (no `max`; the claim's
`max`-formula is only matched when the cost is at least the deductible) and
`insurance_payment = round2 (c - (d + (c - d) * r))`; the 2-decimal rounding
is applied to the reported values only, on top of the full-precision
arithmetic. -/
theorem C3_cost_formula_amended (cost d r : ℚ) :
    ((check_cost_limits cost
        { annual_deductible := some d, coinsurance_rate := some r }).patient_responsibility
      = some (round2 (d + (cost - d) * r)))
    ∧ ((check_cost_limits cost
        { annual_deductible := some d, coinsurance_rate := some r }).insurance_payment
      = some (round2 (cost - (d + (cost - d) * r))))
    ∧ (d ≤ cost →
        patient_responsibility_raw cost d r = patient_responsibility_spec cost d r) := by
  refine ⟨rfl, rfl, fun h => ?_⟩
  unfold patient_responsibility_raw patient_responsibility_spec
  rw [max_eq_right (sub_nonneg.mpr h)]

/-- C3 witness: above the deductible the code's formula and the spec's
`max`-formula agree. -/
theorem C3_cost_formula_amended_witness :
    (1600 : ℚ) ≤ 2000
    ∧ patient_responsibility_raw 2000 1600 (1/5) = patient_responsibility_spec 2000 1600 (1/5) :=
  ⟨by norm_num, (C3_cost_formula_amended 2000 1600 (1/5)).2.2 (by norm_num)⟩

unseal Rat.add Rat.mul Rat.sub Rat.inv in
/-- C2 counterexample: the claim "risk level HIGH or requires_manual_review
true implies the final decision is REQUIRES_REVIEW and never APPROVED" fails
on the code twice.  (i) A pipeline-produced report with EXCLUDED coverage and
HIGH risk (manual review required) is decided DENIED, not REQUIRES_REVIEW,
because the DENIED override of `_determine_decision_type` is checked first.
(ii) A report stating level HIGH while `requires_manual_review` is false is
APPROVED outright at composite score 0.80, because the code only consults the
`requires_manual_review` flag, never the level. -/
theorem C2_high_risk_counterexample :
    ((((check_policy_compliance info_cosmetic rules_excl).risk_level.bind
        fun r => r.level) = some "HIGH")
      ∧ (((check_policy_compliance info_cosmetic rules_excl).risk_level.bind
        fun r => r.requires_manual_review) = some true)
      ∧ (make_decision info_cosmetic (check_policy_compliance info_cosmetic rules_excl)
          "2024-06-01T00:00:00").decision = "DENIED")
    ∧ (((report_high_no_review.risk_level.bind fun r => r.level) = some "HIGH")
      ∧ (make_decision empty_info report_high_no_review
          "2024-06-01T00:00:00").decision = "APPROVED") := by
  decide

/-- C2 amended: whenever the report's `requires_manual_review` flag is true,
the DecisionMaker never returns APPROVED; it returns REQUIRES_REVIEW unless
the report's provisional decision is DENIED, in which case the DENIED override
wins. -/
theorem C2_manual_review_never_approved (ei : ExtractedInfo) (pr : PolicyResult)
    (now : String)
    (h : (pr.risk_level.bind fun r => r.requires_manual_review).getD false = true) :
    ((make_decision ei pr now).decision ≠ "APPROVED")
    ∧ ((pr.final_decision.bind fun f => f.decision).getD "REQUIRES_REVIEW" ≠ "DENIED" →
        (make_decision ei pr now).decision = "REQUIRES_REVIEW")
    ∧ ((pr.final_decision.bind fun f => f.decision).getD "REQUIRES_REVIEW" = "DENIED" →
        (make_decision ei pr now).decision = "DENIED") := by
  have hdec : (make_decision ei pr now).decision
      = determine_decision_type (calculate_decision_score pr) pr := rfl
  by_cases hd : (pr.final_decision.bind fun f => f.decision).getD "REQUIRES_REVIEW" = "DENIED"
  · rw [hdec]
    unfold determine_decision_type
    simp [hd]
  · rw [hdec]
    unfold determine_decision_type
    simp [hd, h]

/-- C2 witness: a concrete report with the manual-review flag set is not
approved. -/
theorem C2_manual_review_never_approved_witness :
    (((check_policy_compliance info_cosmetic rules_excl).risk_level.bind
        fun r => r.requires_manual_review).getD false = true)
    ∧ (make_decision info_cosmetic (check_policy_compliance info_cosmetic rules_excl)
        "2024-06-01T00:00:00").decision ≠ "APPROVED" :=
  ⟨by decide,
   (C2_manual_review_never_approved info_cosmetic _ "2024-06-01T00:00:00" (by decide)).1⟩

/-- C4: a rule matches when the diagnosis axis OR the procedure axis matches
(each axis matching via empty-list wildcard or case-insensitive substring);
categories are scanned covered, then conditional, then excluded; the first
matching rule in priority order wins (so a covered match beats any excluded
match); and no match across all three categories yields the default
REQUIRES_REVIEW record. -/
theorem C4_coverage_matching (d t : String) (cr : CoverageRules) :
    (∀ rule : CoverageRule,
        matches_rule d t rule = true ↔
          ((rule.condition = []
              ∨ ∃ c ∈ rule.condition, strIn (pyLower c) (pyLower d) = true)
            ∨ (rule.procedure = []
              ∨ ∃ p ∈ rule.procedure, strIn (pyLower p) (pyLower t) = true)))
    ∧ (∀ r : CoverageRule, cr.covered.find? (fun x => matches_rule d t x) = some r →
        determine_coverage_status d t cr =
          { status := some "COVERED", source := some (r.source.getD "Unknown"),
            title := some (r.title.getD ""),
            reason := some ("Meets Medicare coverage determination: " ++ r.title.getD "") })
    ∧ ((∃ r ∈ cr.covered, matches_rule d t r = true) →
        (determine_coverage_status d t cr).status = some "COVERED")
    ∧ ((∀ r ∈ cr.covered, ¬ matches_rule d t r = true) →
        (∃ r ∈ cr.conditional, matches_rule d t r = true) →
        (determine_coverage_status d t cr).status = some "CONDITIONAL")
    ∧ ((∀ r ∈ cr.covered ++ cr.conditional, ¬ matches_rule d t r = true) →
        (∃ r ∈ cr.excluded, matches_rule d t r = true) →
        (determine_coverage_status d t cr).status = some "EXCLUDED")
    ∧ ((∀ r ∈ cr.covered ++ cr.conditional ++ cr.excluded, ¬ matches_rule d t r = true) →
        determine_coverage_status d t cr =
          { status := some "REQUIRES_REVIEW", source := some "Policy_Default",
            title := some "Manual Review Required",
            reason := some "No explicit coverage determination found, requires manual review" }) := by
  have hsem : ∀ rule : CoverageRule,
      matches_rule d t rule = true ↔
        ((rule.condition = []
            ∨ ∃ c ∈ rule.condition, strIn (pyLower c) (pyLower d) = true)
          ∨ (rule.procedure = []
            ∨ ∃ p ∈ rule.procedure, strIn (pyLower p) (pyLower t) = true)) := by
    intro rule
    unfold matches_rule
    cases hc : rule.condition <;> cases hp : rule.procedure <;>
      simp [List.any_eq_true]
  have hcov : ∀ r : CoverageRule, cr.covered.find? (fun x => matches_rule d t x) = some r →
      determine_coverage_status d t cr =
        { status := some "COVERED", source := some (r.source.getD "Unknown"),
          title := some (r.title.getD ""),
          reason := some ("Meets Medicare coverage determination: " ++ r.title.getD "") } := by
    intro r hr
    unfold determine_coverage_status
    rw [hr]
  refine ⟨hsem, hcov, ?_, ?_, ?_, ?_⟩
  · rintro ⟨r, hrmem, hrmatch⟩
    rcases hfind : cr.covered.find? (fun x => matches_rule d t x) with _ | r0
    · exact absurd hrmatch (by simpa using List.find?_eq_none.mp hfind r hrmem)
    · rw [hcov r0 hfind]
  · intro hnone ⟨r, hrmem, hrmatch⟩
    have h1 : cr.covered.find? (fun x => matches_rule d t x) = none :=
      List.find?_eq_none.mpr (by simpa using hnone)
    rcases hfind : cr.conditional.find? (fun x => matches_rule d t x) with _ | r0
    · exact absurd hrmatch (by simpa using List.find?_eq_none.mp hfind r hrmem)
    · unfold determine_coverage_status
      rw [h1, hfind]
  · intro hnone ⟨r, hrmem, hrmatch⟩
    have h1 : cr.covered.find? (fun x => matches_rule d t x) = none :=
      List.find?_eq_none.mpr fun x hx => hnone x (List.mem_append.mpr (Or.inl hx))
    have h2 : cr.conditional.find? (fun x => matches_rule d t x) = none :=
      List.find?_eq_none.mpr fun x hx => hnone x (List.mem_append.mpr (Or.inr hx))
    rcases hfind : cr.excluded.find? (fun x => matches_rule d t x) with _ | r0
    · exact absurd hrmatch (by simpa using List.find?_eq_none.mp hfind r hrmem)
    · unfold determine_coverage_status
      rw [h1, h2, hfind]
  · intro hnone
    have h1 : cr.covered.find? (fun x => matches_rule d t x) = none :=
      List.find?_eq_none.mpr fun x hx =>
        hnone x (List.mem_append.mpr (Or.inl (List.mem_append.mpr (Or.inl hx))))
    have h2 : cr.conditional.find? (fun x => matches_rule d t x) = none :=
      List.find?_eq_none.mpr fun x hx =>
        hnone x (List.mem_append.mpr (Or.inl (List.mem_append.mpr (Or.inr hx))))
    have h3 : cr.excluded.find? (fun x => matches_rule d t x) = none :=
      List.find?_eq_none.mpr fun x hx => hnone x (List.mem_append.mpr (Or.inr hx))
    unfold determine_coverage_status
    rw [h1, h2, h3]

/-- C4 witness: a claim matching both a covered and an excluded rule of
`rules_both` resolves to COVERED. -/
theorem C4_coverage_matching_witness :
    (∃ r ∈ rules_both.coverage_rules.covered,
        matches_rule (pyLower "Cataract") (pyLower "Phaco-emulsification") r = true)
    ∧ (∃ r ∈ rules_both.coverage_rules.excluded,
        matches_rule (pyLower "Cataract") (pyLower "Phaco-emulsification") r = true)
    ∧ (determine_coverage_status (pyLower "Cataract") (pyLower "Phaco-emulsification")
        rules_both.coverage_rules).status = some "COVERED" :=
  ⟨by decide, by decide,
   (C4_coverage_matching (pyLower "Cataract") (pyLower "Phaco-emulsification")
     rules_both.coverage_rules).2.2.1 (by decide)⟩

/-- C5 counterexample: the full output of `make_decision` embeds the wall
clock in `processing_metadata.decision_timestamp`, so two runs of the pipeline
on identical claim and rule table are not bit-identical. -/
theorem C5_timestamp_counterexample :
    pipeline info_cataract rules_both "2024-06-01T10:00:00"
      ≠ pipeline info_cataract rules_both "2024-06-01T10:00:01" := by
  intro hEq
  have h := congrArg (fun fd => fd.processing_metadata.decision_timestamp) hEq
  simp [pipeline, make_decision] at h

/-- C5 amended: the pipeline is deterministic in everything except the
timestamp: two runs on identical claim record and rule table agree on every
field of the final decision other than `decision_timestamp` (in particular on
decision, scores, reason, recommendations, financial impact and medicare
details). -/
theorem C5_pipeline_deterministic (ei : ExtractedInfo) (rules : MedicareRules)
    (t1 t2 : String) :
    erase_timestamp (pipeline ei rules t1) = erase_timestamp (pipeline ei rules t2)
    ∧ (pipeline ei rules t1).decision = (pipeline ei rules t2).decision
    ∧ (pipeline ei rules t1).decision_score = (pipeline ei rules t2).decision_score
    ∧ (pipeline ei rules t1).confidence = (pipeline ei rules t2).confidence
    ∧ (pipeline ei rules t1).reason = (pipeline ei rules t2).reason
    ∧ (pipeline ei rules t1).recommendations = (pipeline ei rules t2).recommendations
    ∧ (pipeline ei rules t1).financial_impact = (pipeline ei rules t2).financial_impact
    ∧ (pipeline ei rules t1).medicare_details = (pipeline ei rules t2).medicare_details := by
  refine ⟨?_, rfl, rfl, rfl, rfl, rfl, rfl, rfl⟩
  simp [pipeline, make_decision, erase_timestamp]

/-- C7: the risk score is the signed sum of the five independent signals, the
level buckets the raw signed score (≥ 5 HIGH, ≥ 2 MEDIUM, else LOW), the
manual-review flag is set exactly for HIGH and MEDIUM, the score is not
clamped (a purely routine treatment scores -1), and all positive signals can
co-fire (an expensive experimental elective claim scores 10). -/
theorem C7_risk_scoring (cost : ℚ) (d t : String) (ra : RiskAssessment) :
    ((assess_risk_level cost d t ra).score = some (
        (if cost > 50000 then 3 else 0)
        + (if strIn "experimental" (pyLower t) || strIn "investigational" (pyLower t)
            then 3 else 0)
        + (if cost > 10000 then 2 else 0)
        + (if strIn "elective" (pyLower t) then 2 else 0)
        - (if strIn "routine" (pyLower t) || strIn "preventive" (pyLower t) then 1 else 0)))
    ∧ ((assess_risk_level cost d t ra).level = some (
        if (5 : ℤ) ≤ ((if cost > 50000 then 3 else 0)
            + (if strIn "experimental" (pyLower t) || strIn "investigational" (pyLower t)
                then 3 else 0)
            + (if cost > 10000 then 2 else 0)
            + (if strIn "elective" (pyLower t) then 2 else 0)
            - (if strIn "routine" (pyLower t) || strIn "preventive" (pyLower t) then 1 else 0))
        then "HIGH"
        else if (2 : ℤ) ≤ ((if cost > 50000 then 3 else 0)
            + (if strIn "experimental" (pyLower t) || strIn "investigational" (pyLower t)
                then 3 else 0)
            + (if cost > 10000 then 2 else 0)
            + (if strIn "elective" (pyLower t) then 2 else 0)
            - (if strIn "routine" (pyLower t) || strIn "preventive" (pyLower t) then 1 else 0))
        then "MEDIUM" else "LOW"))
    ∧ ((assess_risk_level cost d t ra).requires_manual_review = some true ↔
        ((assess_risk_level cost d t ra).level = some "HIGH"
          ∨ (assess_risk_level cost d t ra).level = some "MEDIUM"))
    ∧ (assess_risk_level 0 d "routine checkup" ra).score = some (-1)
    ∧ (assess_risk_level 60000 d "experimental elective procedure" ra).score = some 10 := by
  refine ⟨?_, ?_, ?_, ?_, ?_⟩
  · rw [assess_risk_level_eq]
  · rw [assess_risk_level_eq]
  · rw [assess_risk_level_eq]
    simp only [Option.some.injEq, beq_iff_eq, Bool.or_eq_true]
  · have h : assess_risk_level 0 d "routine checkup" ra
        = assess_risk_level 0 "" "routine checkup" ⟨[], [], []⟩ := rfl
    rw [h]; decide
  · have h : assess_risk_level 60000 d "experimental elective procedure" ra
        = assess_risk_level 60000 "" "experimental elective procedure" ⟨[], [], []⟩ := rfl
    rw [h]; decide

unseal Rat.add Rat.mul Rat.sub Rat.inv in
/-- C9: missing claim fields coerce to the documented defaults (Unknown / ""
/ 0), a compliance report with every nested field missing still yields a
final decision — the conservative REQUIRES_REVIEW branch — and the
DecisionMaker is total: its decision is always one of APPROVED, DENIED,
REQUIRES_REVIEW for an arbitrary partial report. -/
theorem C9_defaults_and_totality :
    (∀ (rules : MedicareRules) (now : String),
        pipeline empty_info rules now = pipeline default_info rules now)
    ∧ (∀ (ei : ExtractedInfo) (now : String),
        (make_decision ei empty_report now).decision = "REQUIRES_REVIEW")
    ∧ (∀ (ei : ExtractedInfo) (pr : PolicyResult) (now : String),
        (make_decision ei pr now).decision = "APPROVED"
        ∨ (make_decision ei pr now).decision = "DENIED"
        ∨ (make_decision ei pr now).decision = "REQUIRES_REVIEW") := by
  refine ⟨fun rules now => rfl, fun ei now => ?_, fun ei pr now => ?_⟩
  · have h : (make_decision ei empty_report now).decision
        = determine_decision_type (calculate_decision_score empty_report) empty_report := rfl
    rw [h]
    decide
  · have h : (make_decision ei pr now).decision
        = determine_decision_type (calculate_decision_score pr) pr := rfl
    rw [h]
    unfold determine_decision_type
    split_ifs <;> try simp
    all_goals tauto

end MedicareAudit
